import Mathlib

/-!
# Verification of the cache-aside image-gallery server

Shallow embedding of the Express/Redis/Cloudinary server (`src/unnamed/part_000`).
The server exposes three routes:

* `GET /api/images`   — cache-aside read of a gallery snapshot,
* `GET /health`       — connectivity report,
* `POST /api/clear-cache` — explicit invalidation of the single cache entry.

JSON values exchanged with clients and stored in the cache are modelled at the
level of a JSON value tree (`Json`); `JSON.stringify`/`JSON.parse` of the
JavaScript runtime are the canonical bijection between such trees and their
textual form, so serialization of a snapshot is modelled as its encoding into a
`Json` tree (`encodeImages`) and deserialization as decoding (`decodeImages`).

Redis is modelled by the outcome each client call can have (`Except` values for
`get`/`setEx`/`del`, which may succeed or reject) together with a trace of the
operations the handler attempted (`Event`), and a state-level semantics
(`CacheState`, `applyEvent`) giving the effect of successful operations on the
store.
-/

/-- A JSON value, as produced by `res.json`, `JSON.stringify`/`JSON.parse`. -/
inductive Json where
  | null
  | bool (b : Bool)
  | str (s : String)
  | arr (xs : List Json)
  | obj (fields : List (String × Json))

/-- Reading a field of a JSON object (the first binding of the name, as JS
property access on the object literals the server builds). -/
def Json.getField (j : Json) (k : String) : Option Json :=
  match j with
  | .obj fields => (fields.find? (fun p => p.1 == k)).map (fun p => p.2)
  | _ => none

/-- One raw resource record of the upstream media index, with the two fields
the server reads (`resource.public_id` and `resource.secure_url`). -/
structure Resource where
  public_id : String
  secure_url : String
deriving Repr, DecidableEq

/-- One image descriptor of a gallery snapshot, exactly the object literal
built at lines 61-71 of the source. -/
structure Image where
  public_id : String
  url : String
  original_url : String
  title : String
deriving Repr, DecidableEq

/-- The JavaScript builtin `String.prototype.split` with a one-character
separator: cuts the string at every occurrence of `sep`, keeping empty
segments, so `jsSplit "" sep = [""]` and a trailing separator yields a final
empty segment, as in JS. -/
def splitCharAux (sep : Char) : List Char → List Char → List (List Char)
  | acc, [] => [acc.reverse]
  | acc, c :: cs =>
    if c = sep then acc.reverse :: splitCharAux sep [] cs
    else splitCharAux sep (c :: acc) cs

/-- JavaScript's `s.split(sep)`, for a one-character separator. -/
def jsSplit (s : String) (sep : Char) : List String :=
  (splitCharAux sep [] s.data).map String.mk

/-- Source line 49: `const IMAGES_CACHE_KEY = 'cloudinary:images:all';` -/
def IMAGES_CACHE_KEY : String := "cloudinary:images:all"

/-- Source line 50: `const CACHE_TTL = 3600;` (one hour, in seconds). -/
def CACHE_TTL : Nat := 3600

/-- The call `cloudinary.search.expression('resource_type:image').max_results(n).execute()`:
the external media index either fails the call (network error or malformed
response body, both of which make the handler's mapping code throw) or returns
its image resources truncated to the requested `max_results`, per the
Cloudinary search API contract.  `index` is the state of the external index. -/
def cloudinarySearch (index : Except Unit (List Resource)) (maxResults : Nat) :
    Except Unit (List Resource) :=
  index.map (fun rs => rs.take maxResults)

/-- The transformation applied to each raw resource (source lines 61-71).
`curl` stands for the external URL builder `cloudinary.url` with the fixed
options crop fill, width 400, height 400, quality auto. -/
def toImage (curl : String → String) (r : Resource) : Image :=
  { public_id := r.public_id
  , url := curl r.public_id
  , original_url := r.secure_url
  , title := (jsSplit r.public_id '/').getLastD "" }

/-- Source lines 53-78, `fetchImagesFromCloudinary`: queries the index with
`max_results(20)`, maps every returned resource through `toImage`; any error
is caught and re-thrown as `Error('Failed to fetch images from Cloudinary')`. -/
def fetchImagesFromCloudinary (curl : String → String)
    (index : Except Unit (List Resource)) : Except String (List Image) :=
  match cloudinarySearch index 20 with
  | .error _ => .error "Failed to fetch images from Cloudinary"
  | .ok resources => .ok (resources.map (toImage curl))

/-- JSON encoding of one image descriptor: the object the server serializes. -/
def encodeImage (img : Image) : Json :=
  .obj [("public_id", .str img.public_id), ("url", .str img.url),
        ("original_url", .str img.original_url), ("title", .str img.title)]

/-- JSON encoding of a snapshot: what `JSON.stringify(images)` denotes. -/
def encodeImages (images : List Image) : Json :=
  .arr (images.map encodeImage)

/-- Decoding one image descriptor back from its JSON form. -/
def decodeImage : Json → Option Image
  | .obj [("public_id", .str p), ("url", .str u),
          ("original_url", .str o), ("title", .str t)] =>
      some { public_id := p, url := u, original_url := o, title := t }
  | _ => none

/-- Decoding a snapshot from its JSON form: what `JSON.parse` recovers. -/
def decodeImages : Json → Option (List Image)
  | .arr xs => xs.mapM decodeImage
  | _ => none

/-- One observable operation a request handler performs: the three Redis calls
it can attempt (always on some key) and an invocation of the upstream fetch. -/
inductive Event where
  | cacheGet (key : String)
  | cacheSetEx (key : String) (ttl : Nat) (value : Json)
  | cacheDel (key : String)
  | fetch

/-- Whether an event is an invocation of the Fetcher. -/
def Event.isFetch : Event → Bool
  | .fetch => true
  | _ => false

/-- Whether an event is a cache-store operation (a Redis call). -/
def Event.isCacheOp : Event → Bool
  | .cacheGet _ => true
  | .cacheSetEx _ _ _ => true
  | .cacheDel _ => true
  | .fetch => false

/-- Whether an event is a cache write. -/
def Event.isSetEx : Event → Bool
  | .cacheSetEx _ _ _ => true
  | _ => false

/-- Whether an event is a cache delete. -/
def Event.isDel : Event → Bool
  | .cacheDel _ => true
  | _ => false

/-- Every cache operation of the event addresses key `k` (vacuous for `fetch`). -/
def Event.usesKey (k : String) : Event → Prop
  | .cacheGet key => key = k
  | .cacheSetEx key _ _ => key = k
  | .cacheDel key => key = k
  | .fetch => True

/-- Every write of the event carries expiry `t` (vacuous for non-writes). -/
def Event.ttlIs (t : Nat) : Event → Prop
  | .cacheSetEx _ ttl _ => ttl = t
  | _ => True

/-- The cache store: each key holds an unexpired value together with the
absolute time at which it expires, or nothing.  Redis removes entries at
expiry, so a present entry is an unexpired one. -/
def CacheState : Type := String → Option (Json × Nat)

/-- Reading key `k` from a live store at time `now` (`redisClient.get`): the
held value if present and unexpired, otherwise `null`. -/
def liveGet (s : CacheState) (now : Nat) (k : String) : Option Json :=
  match s k with
  | some (v, expiry) => if now < expiry then some v else none
  | none => none

/-- Effect of one successfully executed event on the store at time `now`. -/
def applyEvent (now : Nat) (s : CacheState) : Event → CacheState
  | .cacheGet _ => s
  | .cacheSetEx k ttl v => fun k' => if k' = k then some (v, now + ttl) else s k'
  | .cacheDel k => fun k' => if k' = k then none else s k'
  | .fetch => s

/-- Effect of a trace of successfully executed events, in order. -/
def applyEvents (now : Nat) (s : CacheState) : List Event → CacheState
  | [] => s
  | e :: es => applyEvents now (applyEvent now s e) es

/-- An HTTP response: status code and JSON body. -/
structure HttpResponse where
  status : Nat
  body : Json

/-- Source lines 81-123, the `GET /api/images` handler.  `redisConnected` is
the process-wide flag; `getRes` and `setRes` are the outcomes the two Redis
calls would have if attempted (a rejected promise carries an error message,
which the surrounding `try`/`catch` turns into a 500 response); `index` is the
external media index.  Returns the response together with the trace of
operations attempted. -/
def apiImagesHandler (redisConnected : Bool)
    (getRes : Except String (Option Json))
    (setRes : Except String Unit)
    (curl : String → String)
    (index : Except Unit (List Resource)) :
    HttpResponse × List Event :=
  if redisConnected then
    match getRes with
    | .error e =>
        (⟨500, .obj [("success", .bool false), ("error", .str e)]⟩,
         [.cacheGet IMAGES_CACHE_KEY])
    | .ok (some cachedImages) =>
        (⟨200, .obj [("success", .bool true), ("cached", .bool true),
                     ("data", cachedImages)]⟩,
         [.cacheGet IMAGES_CACHE_KEY])
    | .ok none =>
        match fetchImagesFromCloudinary curl index with
        | .error msg =>
            (⟨500, .obj [("success", .bool false), ("error", .str msg)]⟩,
             [.cacheGet IMAGES_CACHE_KEY, .fetch])
        | .ok images =>
            match setRes with
            | .error e =>
                (⟨500, .obj [("success", .bool false), ("error", .str e)]⟩,
                 [.cacheGet IMAGES_CACHE_KEY, .fetch,
                  .cacheSetEx IMAGES_CACHE_KEY CACHE_TTL (encodeImages images)])
            | .ok _ =>
                (⟨200, .obj [("success", .bool true), ("cached", .bool false),
                             ("data", encodeImages images)]⟩,
                 [.cacheGet IMAGES_CACHE_KEY, .fetch,
                  .cacheSetEx IMAGES_CACHE_KEY CACHE_TTL (encodeImages images)])
  else
    match fetchImagesFromCloudinary curl index with
    | .error msg =>
        (⟨500, .obj [("success", .bool false), ("error", .str msg)]⟩, [.fetch])
    | .ok images =>
        (⟨200, .obj [("success", .bool true), ("cached", .bool false),
                     ("data", encodeImages images)]⟩, [.fetch])

/-- Source lines 126-131, the `GET /health` handler.  The cache-connectivity
field is named `redis` in the response body. -/
def healthHandler (redisConnected : Bool) : HttpResponse :=
  ⟨200, .obj [("status", .str "OK"),
              ("redis", .str (if redisConnected then "connected"
                              else "disconnected"))]⟩

/-- Source lines 134-145, the `POST /api/clear-cache` handler.  `delRes` is
the outcome `redisClient.del` would have if attempted. -/
def apiClearCacheHandler (redisConnected : Bool)
    (delRes : Except String Unit) : HttpResponse × List Event :=
  if redisConnected then
    match delRes with
    | .ok _ =>
        (⟨200, .obj [("success", .bool true), ("message", .str "Cache cleared")]⟩,
         [.cacheDel IMAGES_CACHE_KEY])
    | .error e =>
        (⟨500, .obj [("success", .bool false), ("error", .str e)]⟩,
         [.cacheDel IMAGES_CACHE_KEY])
  else
    (⟨400, .obj [("success", .bool false), ("message", .str "Redis not connected")]⟩,
     [])

/-! ## Theorems -/

/-- Decoding inverts encoding on a single image descriptor. -/
theorem decodeImage_encodeImage (img : Image) :
    decodeImage (encodeImage img) = some img := by
  cases img
  rfl

/-- C7: for every snapshot produced by the Fetcher, serializing it and then
deserializing the result yields a snapshot equal field-for-field to the
original (round-trip without data loss). -/
theorem snapshot_roundtrip (images : List Image) :
    decodeImages (encodeImages images) = some images := by
  induction images with
  | nil => rfl
  | cons img rest ih =>
      simp only [encodeImages, decodeImages, List.map_cons, List.mapM_cons,
        decodeImage_encodeImage, Option.pure_def, Option.bind_eq_bind,
        Option.some_bind]
      simp only [encodeImages, decodeImages] at ih
      rw [ih]
      rfl

/-- C6: for every successful upstream response, the Fetcher returns at most 20
descriptors, each obtained by transforming one resource of the index into a
record with an identifier (`public_id`), a display URL (`url`), an original
URL (`original_url`) and a title, the title being the final '/'-separated
segment of the resource's identifier. -/
theorem fetchImages_shape (curl : String → String) (index : List Resource)
    (images : List Image)
    (h : fetchImagesFromCloudinary curl (.ok index) = .ok images) :
    images.length ≤ 20 ∧
    images = (index.take 20).map (toImage curl) ∧
    ∀ img ∈ images, ∃ r ∈ index,
      img.public_id = r.public_id ∧
      img.url = curl r.public_id ∧
      img.original_url = r.secure_url ∧
      img.title = (jsSplit r.public_id '/').getLastD "" := by
  simp only [fetchImagesFromCloudinary, cloudinarySearch, Except.map,
    Except.ok.injEq] at h
  subst h
  refine ⟨?_, rfl, ?_⟩
  · calc ((index.take 20).map (toImage curl)).length
        = (index.take 20).length := List.length_map _ _
      _ ≤ 20 := List.length_take_le _ _
  · intro img hmem
    rcases List.mem_map.mp hmem with ⟨r, hr, himg⟩
    exact ⟨r, List.mem_of_mem_take hr, by simp [← himg, toImage]⟩

/-- C8: every GET /health response is a 200 whose body is an object with a
`status` field and a cache-connectivity field (named `redis` in the code)
whose value is "connected" exactly when the cache store is available and
"disconnected" otherwise. -/
theorem health_shape (redisConnected : Bool) :
    (healthHandler redisConnected).status = 200 ∧
    (healthHandler redisConnected).body.getField "status" = some (.str "OK") ∧
    (healthHandler redisConnected).body.getField "redis" =
      some (.str (if redisConnected then "connected" else "disconnected")) := by
  cases redisConnected <;> exact ⟨rfl, rfl, rfl⟩

/-- C1: while the connected flag is false, the GET /api/images handler
performs no cache operation at all, its outcome does not depend in any way on
the behaviour the cache operations would have, it invokes the Fetcher exactly
once, and whenever the Fetcher succeeds it answers 200 with cached = false. -/
theorem apiImages_cacheDown (getRes getRes2 : Except String (Option Json))
    (setRes setRes2 : Except String Unit)
    (curl : String → String) (index : Except Unit (List Resource)) :
    (∀ e ∈ (apiImagesHandler false getRes setRes curl index).2,
        e.isCacheOp = false) ∧
    apiImagesHandler false getRes setRes curl index =
      apiImagesHandler false getRes2 setRes2 curl index ∧
    (apiImagesHandler false getRes setRes curl index).2.countP Event.isFetch
      = 1 ∧
    (∀ images, fetchImagesFromCloudinary curl index = .ok images →
      apiImagesHandler false getRes setRes curl index =
        (⟨200, .obj [("success", .bool true), ("cached", .bool false),
                     ("data", encodeImages images)]⟩, [.fetch])) := by
  cases hf : fetchImagesFromCloudinary curl index with
  | error msg =>
      simp [apiImagesHandler, hf, Event.isCacheOp, Event.isFetch,
        List.countP_cons]
  | ok images =>
      simp [apiImagesHandler, hf, Event.isCacheOp, Event.isFetch,
        List.countP_cons]

/-- C2: while the cache is connected and the live store holds an unexpired
value for the fixed key, the GET /api/images handler answers 200 with
success = true, cached = true and that value as data, and the Fetcher is
never invoked. -/
theorem apiImages_hit (s : CacheState) (now : Nat) (v : Json) (expiry : Nat)
    (setRes : Except String Unit) (curl : String → String)
    (index : Except Unit (List Resource))
    (hkey : s IMAGES_CACHE_KEY = some (v, expiry)) (hunexp : now < expiry) :
    apiImagesHandler true (.ok (liveGet s now IMAGES_CACHE_KEY)) setRes curl
        index =
      (⟨200, .obj [("success", .bool true), ("cached", .bool true),
                   ("data", v)]⟩,
       [.cacheGet IMAGES_CACHE_KEY]) ∧
    (apiImagesHandler true (.ok (liveGet s now IMAGES_CACHE_KEY)) setRes curl
        index).2.countP Event.isFetch = 0 := by
  have hget : liveGet s now IMAGES_CACHE_KEY = some v := by
    simp [liveGet, hkey, hunexp]
  rw [hget]
  exact ⟨rfl, rfl⟩

/-- C3: while the cache is connected but the live store yields nothing for the
fixed key, the GET /api/images handler invokes the Fetcher exactly once,
stores the serialized result under the fixed key with expiry `CACHE_TTL`, and
answers 200 with cached = false and that result as data. -/
theorem apiImages_miss (s : CacheState) (now : Nat)
    (curl : String → String) (index : Except Unit (List Resource))
    (images : List Image)
    (hmiss : liveGet s now IMAGES_CACHE_KEY = none)
    (hfetch : fetchImagesFromCloudinary curl index = .ok images) :
    apiImagesHandler true (.ok (liveGet s now IMAGES_CACHE_KEY)) (.ok ()) curl
        index =
      (⟨200, .obj [("success", .bool true), ("cached", .bool false),
                   ("data", encodeImages images)]⟩,
       [.cacheGet IMAGES_CACHE_KEY, .fetch,
        .cacheSetEx IMAGES_CACHE_KEY CACHE_TTL (encodeImages images)]) ∧
    (apiImagesHandler true (.ok (liveGet s now IMAGES_CACHE_KEY)) (.ok ()) curl
        index).2.countP Event.isFetch = 1 ∧
    applyEvents now s
        (apiImagesHandler true (.ok (liveGet s now IMAGES_CACHE_KEY)) (.ok ())
          curl index).2 IMAGES_CACHE_KEY
      = some (encodeImages images, now + CACHE_TTL) := by
  rw [hmiss]
  simp [apiImagesHandler, hfetch, Event.isFetch, List.countP_cons,
    applyEvents, applyEvent]

/-- C5: when the upstream call fails, the Fetcher raises the fixed upstream
error without retrying (a single invocation), and the GET /api/images handler
surfaces it as a 500 response with success = false and that message, both with
the cache connected on a miss and with the cache down. -/
theorem apiImages_upstreamFailure (setRes : Except String Unit)
    (curl : String → String) (index : Except Unit (List Resource))
    (hup : index = .error ()) :
    fetchImagesFromCloudinary curl index =
      .error "Failed to fetch images from Cloudinary" ∧
    apiImagesHandler true (.ok none) setRes curl index =
      (⟨500, .obj [("success", .bool false),
                   ("error", .str "Failed to fetch images from Cloudinary")]⟩,
       [.cacheGet IMAGES_CACHE_KEY, .fetch]) ∧
    apiImagesHandler false (.ok none) setRes curl index =
      (⟨500, .obj [("success", .bool false),
                   ("error", .str "Failed to fetch images from Cloudinary")]⟩,
       [.fetch]) ∧
    (apiImagesHandler true (.ok none) setRes curl index).2.countP Event.isFetch
      = 1 ∧
    (apiImagesHandler false (.ok none) setRes curl index).2.countP
      Event.isFetch = 1 := by
  subst hup
  refine ⟨rfl, rfl, rfl, rfl, rfl⟩

/-- C4 counterexample: with the connected flag true but the delete call
rejecting (a dropped connection the flag never records, since the error
listener only logs), POST /api/clear-cache answers 500 — neither of the two
outcomes the claim allows (a success body, or status 400). -/
theorem clearCache_third_outcome :
    (apiClearCacheHandler true (.error "connection lost")).1.status ≠ 200 ∧
    (apiClearCacheHandler true (.error "connection lost")).1.status ≠ 400 ∧
    (apiClearCacheHandler true (.error "connection lost")).1 =
      ⟨500, .obj [("success", .bool false),
                  ("error", .str "connection lost")]⟩ := by
  refine ⟨by decide, by decide, rfl⟩

/-- C4 amended: POST /api/clear-cache has exactly three outcomes — with the
flag false it answers 400 and touches nothing; with the flag true and the
delete succeeding it deletes the fixed key (so the live store no longer holds
it) and answers 200 with success = true; with the flag true and the delete
rejecting it answers 500 with the error message. -/
theorem clearCache_spec (redisConnected : Bool) (delRes : Except String Unit) :
    (redisConnected = false →
      apiClearCacheHandler redisConnected delRes =
        (⟨400, .obj [("success", .bool false),
                     ("message", .str "Redis not connected")]⟩, [])) ∧
    (redisConnected = true → delRes = .ok () →
      apiClearCacheHandler redisConnected delRes =
        (⟨200, .obj [("success", .bool true),
                     ("message", .str "Cache cleared")]⟩,
         [.cacheDel IMAGES_CACHE_KEY]) ∧
      ∀ (now : Nat) (s : CacheState),
        applyEvents now s (apiClearCacheHandler redisConnected delRes).2
          IMAGES_CACHE_KEY = none) ∧
    (∀ e, redisConnected = true → delRes = .error e →
      apiClearCacheHandler redisConnected delRes =
        (⟨500, .obj [("success", .bool false), ("error", .str e)]⟩,
         [.cacheDel IMAGES_CACHE_KEY])) := by
  cases redisConnected with
  | false =>
      refine ⟨fun _ => rfl, fun h _ => absurd h (by decide), fun e h _ => absurd h (by decide)⟩
  | true =>
      refine ⟨fun h => absurd h (by decide), fun _ hok => ?_, fun e _ herr => ?_⟩
      · subst hok
        exact ⟨rfl, fun now s => by simp [apiClearCacheHandler, applyEvents, applyEvent]⟩
      · subst herr
        rfl

/-- C9: every cache operation either handler attempts addresses the single
fixed key `cloudinary:images:all`, every write carries expiry exactly 3600
seconds, and the two constants are those literals. -/
theorem single_key_invariant (redisConnected : Bool)
    (getRes : Except String (Option Json)) (setRes delRes : Except String Unit)
    (curl : String → String) (index : Except Unit (List Resource)) :
    IMAGES_CACHE_KEY = "cloudinary:images:all" ∧
    CACHE_TTL = 3600 ∧
    (∀ e ∈ (apiImagesHandler redisConnected getRes setRes curl index).2,
       e.usesKey IMAGES_CACHE_KEY ∧ e.ttlIs CACHE_TTL) ∧
    (∀ e ∈ (apiClearCacheHandler redisConnected delRes).2,
       e.usesKey IMAGES_CACHE_KEY ∧ e.ttlIs CACHE_TTL) := by
  refine ⟨rfl, rfl, ?_, ?_⟩
  · cases redisConnected with
    | false =>
        cases hf : fetchImagesFromCloudinary curl index <;>
          simp [apiImagesHandler, hf, Event.usesKey, Event.ttlIs]
    | true =>
        rcases getRes with e | v
        · simp [apiImagesHandler, Event.usesKey, Event.ttlIs]
        · rcases v with _ | v
          · cases hf : fetchImagesFromCloudinary curl index with
            | error msg =>
                simp [apiImagesHandler, hf, Event.usesKey, Event.ttlIs]
            | ok images =>
                rcases setRes with e | u <;>
                  simp [apiImagesHandler, hf, Event.usesKey, Event.ttlIs]
          · simp [apiImagesHandler, Event.usesKey, Event.ttlIs]
  · cases redisConnected with
    | false => simp [apiClearCacheHandler]
    | true =>
        rcases delRes with e | u <;>
          simp [apiClearCacheHandler, Event.usesKey, Event.ttlIs]

/-- C10: a GET /api/images request served from the cache performs only the
single read, leaving the store pointwise unchanged — the value is not
rewritten and the recorded expiry is not refreshed; moreover a write appears
in a GET /api/images trace only on the miss path (flag true, read returned
null), that handler never deletes, and the clear handler never writes. -/
theorem cache_hit_frame (s : CacheState) (now now2 : Nat) (v : Json)
    (expiry : Nat) (setRes : Except String Unit) (curl : String → String)
    (index : Except Unit (List Resource))
    (hkey : s IMAGES_CACHE_KEY = some (v, expiry)) (hunexp : now < expiry) :
    (apiImagesHandler true (.ok (liveGet s now IMAGES_CACHE_KEY)) setRes curl
        index).2 = [.cacheGet IMAGES_CACHE_KEY] ∧
    (∀ k, applyEvents now2 s
        (apiImagesHandler true (.ok (liveGet s now IMAGES_CACHE_KEY)) setRes
          curl index).2 k = s k) ∧
    (∀ (conn : Bool) (getRes : Except String (Option Json))
       (setRes2 : Except String Unit) (curl2 : String → String)
       (index2 : Except Unit (List Resource)) (e : Event),
       e ∈ (apiImagesHandler conn getRes setRes2 curl2 index2).2 →
       e.isSetEx = true → conn = true ∧ getRes = .ok none) ∧
    (∀ (conn : Bool) (getRes : Except String (Option Json))
       (setRes2 : Except String Unit) (curl2 : String → String)
       (index2 : Except Unit (List Resource)) (e : Event),
       e ∈ (apiImagesHandler conn getRes setRes2 curl2 index2).2 →
       e.isDel = false) ∧
    (∀ (conn : Bool) (delRes : Except String Unit) (e : Event),
       e ∈ (apiClearCacheHandler conn delRes).2 → e.isSetEx = false) := by
  have hget : liveGet s now IMAGES_CACHE_KEY = some v := by
    simp [liveGet, hkey, hunexp]
  rw [hget]
  refine ⟨rfl, fun k => rfl, ?_, ?_, ?_⟩
  · intro conn getRes setRes2 curl2 index2 e hmem hset
    cases conn with
    | false =>
        cases hf : fetchImagesFromCloudinary curl2 index2 <;>
          · rw [show (apiImagesHandler false getRes setRes2 curl2 index2).2
                  = [.fetch] by simp [apiImagesHandler, hf]] at hmem
            simp at hmem
            simp [hmem, Event.isSetEx] at hset
    | true =>
        rcases getRes with er | w
        · simp [apiImagesHandler] at hmem
          simp [hmem, Event.isSetEx] at hset
        · rcases w with _ | w
          · exact ⟨rfl, rfl⟩
          · simp [apiImagesHandler] at hmem
            simp [hmem, Event.isSetEx] at hset
  · intro conn getRes setRes2 curl2 index2 e hmem
    cases conn with
    | false =>
        cases hf : fetchImagesFromCloudinary curl2 index2 <;>
          · rw [show (apiImagesHandler false getRes setRes2 curl2 index2).2
                  = [.fetch] by simp [apiImagesHandler, hf]] at hmem
            simp at hmem
            simp [hmem, Event.isDel]
    | true =>
        rcases getRes with er | w
        · simp [apiImagesHandler] at hmem
          simp [hmem, Event.isDel]
        · rcases w with _ | w
          · cases hf : fetchImagesFromCloudinary curl2 index2 with
            | error msg =>
                simp [apiImagesHandler, hf] at hmem
                rcases hmem with h | h <;> simp [h, Event.isDel]
            | ok images =>
                rcases setRes2 with er2 | u2 <;>
                  · simp [apiImagesHandler, hf] at hmem
                    rcases hmem with h | h | h <;> simp [h, Event.isDel]
          · simp [apiImagesHandler] at hmem
            simp [hmem, Event.isDel]
  · intro conn delRes e hmem
    cases conn with
    | false => simp [apiClearCacheHandler] at hmem
    | true =>
        rcases delRes with er | u <;>
          · simp [apiClearCacheHandler] at hmem
            simp [hmem, Event.isSetEx]

/-! ## Concrete instantiations -/

/-- Instance of the C6 shape theorem on a one-resource index. -/
theorem fetchImages_shape_witness :
    ([⟨"folder/pic", "folder/pic", "https://sec", "pic"⟩] : List Image).length
      ≤ 20 ∧
    ([⟨"folder/pic", "folder/pic", "https://sec", "pic"⟩] : List Image)
      = (([⟨"folder/pic", "https://sec"⟩] : List Resource).take 20).map
          (toImage id) ∧
    ∀ img ∈ ([⟨"folder/pic", "folder/pic", "https://sec", "pic"⟩] : List Image),
      ∃ r ∈ ([⟨"folder/pic", "https://sec"⟩] : List Resource),
        img.public_id = r.public_id ∧
        img.url = id r.public_id ∧
        img.original_url = r.secure_url ∧
        img.title = (jsSplit r.public_id '/').getLastD "" :=
  fetchImages_shape id [⟨"folder/pic", "https://sec"⟩]
    [⟨"folder/pic", "folder/pic", "https://sec", "pic"⟩] rfl

/-- Instance of the C1 cache-down theorem at concrete cache behaviours. -/
theorem apiImages_cacheDown_witness :
    (∀ e ∈ (apiImagesHandler false (.error "get refused") (.error "set refused")
        id (.ok [])).2, e.isCacheOp = false) ∧
    apiImagesHandler false (.error "get refused") (.error "set refused") id
        (.ok []) =
      apiImagesHandler false (.ok none) (.ok ()) id (.ok []) ∧
    (apiImagesHandler false (.error "get refused") (.error "set refused") id
        (.ok [])).2.countP Event.isFetch = 1 ∧
    (∀ images, fetchImagesFromCloudinary id (.ok []) = .ok images →
      apiImagesHandler false (.error "get refused") (.error "set refused") id
          (.ok []) =
        (⟨200, .obj [("success", .bool true), ("cached", .bool false),
                     ("data", encodeImages images)]⟩, [.fetch])) :=
  apiImages_cacheDown (.error "get refused") (.ok none) (.error "set refused")
    (.ok ()) id (.ok [])

/-- Instance of the C2 hit theorem on a store holding one unexpired entry. -/
theorem apiImages_hit_witness :
    apiImagesHandler true
        (.ok (liveGet
          (fun k => if k = IMAGES_CACHE_KEY then some (Json.str "snap", 10)
                    else none) 0 IMAGES_CACHE_KEY))
        (.ok ()) id (.ok []) =
      (⟨200, .obj [("success", .bool true), ("cached", .bool true),
                   ("data", .str "snap")]⟩,
       [.cacheGet IMAGES_CACHE_KEY]) ∧
    (apiImagesHandler true
        (.ok (liveGet
          (fun k => if k = IMAGES_CACHE_KEY then some (Json.str "snap", 10)
                    else none) 0 IMAGES_CACHE_KEY))
        (.ok ()) id (.ok [])).2.countP Event.isFetch = 0 :=
  apiImages_hit
    (fun k => if k = IMAGES_CACHE_KEY then some (Json.str "snap", 10) else none)
    0 (.str "snap") 10 (.ok ()) id (.ok []) rfl (by decide)

/-- Instance of the C3 miss theorem on an empty store and a one-image fetch. -/
theorem apiImages_miss_witness :
    apiImagesHandler true (.ok (liveGet (fun _ => none) 0 IMAGES_CACHE_KEY))
        (.ok ()) id (.ok [⟨"folder/pic", "https://sec"⟩]) =
      (⟨200, .obj [("success", .bool true), ("cached", .bool false),
                   ("data", encodeImages
                     [⟨"folder/pic", "folder/pic", "https://sec", "pic"⟩])]⟩,
       [.cacheGet IMAGES_CACHE_KEY, .fetch,
        .cacheSetEx IMAGES_CACHE_KEY CACHE_TTL
          (encodeImages
            [⟨"folder/pic", "folder/pic", "https://sec", "pic"⟩])]) ∧
    (apiImagesHandler true (.ok (liveGet (fun _ => none) 0 IMAGES_CACHE_KEY))
        (.ok ()) id (.ok [⟨"folder/pic", "https://sec"⟩])).2.countP
      Event.isFetch = 1 ∧
    applyEvents 0 (fun _ => none)
        (apiImagesHandler true
          (.ok (liveGet (fun _ => none) 0 IMAGES_CACHE_KEY)) (.ok ()) id
          (.ok [⟨"folder/pic", "https://sec"⟩])).2 IMAGES_CACHE_KEY
      = some (encodeImages
          [⟨"folder/pic", "folder/pic", "https://sec", "pic"⟩],
          0 + CACHE_TTL) :=
  apiImages_miss (fun _ => none) 0 id (.ok [⟨"folder/pic", "https://sec"⟩])
    [⟨"folder/pic", "folder/pic", "https://sec", "pic"⟩] rfl rfl

/-- Instance of the C5 upstream-failure theorem at a failing index. -/
theorem apiImages_upstreamFailure_witness :
    fetchImagesFromCloudinary id (.error ()) =
      .error "Failed to fetch images from Cloudinary" ∧
    apiImagesHandler true (.ok none) (.ok ()) id (.error ()) =
      (⟨500, .obj [("success", .bool false),
                   ("error", .str "Failed to fetch images from Cloudinary")]⟩,
       [.cacheGet IMAGES_CACHE_KEY, .fetch]) ∧
    apiImagesHandler false (.ok none) (.ok ()) id (.error ()) =
      (⟨500, .obj [("success", .bool false),
                   ("error", .str "Failed to fetch images from Cloudinary")]⟩,
       [.fetch]) ∧
    (apiImagesHandler true (.ok none) (.ok ()) id (.error ())).2.countP
      Event.isFetch = 1 ∧
    (apiImagesHandler false (.ok none) (.ok ()) id (.error ())).2.countP
      Event.isFetch = 1 :=
  apiImages_upstreamFailure (.ok ()) id (.error ()) rfl

/-- Instance of the amended C4 theorem with the flag true and a delete that
succeeds. -/
theorem clearCache_spec_witness :
    (true = false →
      apiClearCacheHandler true (.ok ()) =
        (⟨400, .obj [("success", .bool false),
                     ("message", .str "Redis not connected")]⟩, [])) ∧
    (true = true → (.ok () : Except String Unit) = .ok () →
      apiClearCacheHandler true (.ok ()) =
        (⟨200, .obj [("success", .bool true),
                     ("message", .str "Cache cleared")]⟩,
         [.cacheDel IMAGES_CACHE_KEY]) ∧
      ∀ (now : Nat) (s : CacheState),
        applyEvents now s (apiClearCacheHandler true (.ok ())).2
          IMAGES_CACHE_KEY = none) ∧
    (∀ e, true = true → (.ok () : Except String Unit) = .error e →
      apiClearCacheHandler true (.ok ()) =
        (⟨500, .obj [("success", .bool false), ("error", .str e)]⟩,
         [.cacheDel IMAGES_CACHE_KEY])) :=
  clearCache_spec true (.ok ())

/-- Instance of the C9 single-key invariant at concrete handler inputs. -/
theorem single_key_invariant_witness :
    IMAGES_CACHE_KEY = "cloudinary:images:all" ∧
    CACHE_TTL = 3600 ∧
    (∀ e ∈ (apiImagesHandler true (.ok none) (.ok ()) id
        (.ok [⟨"folder/pic", "https://sec"⟩])).2,
       e.usesKey IMAGES_CACHE_KEY ∧ e.ttlIs CACHE_TTL) ∧
    (∀ e ∈ (apiClearCacheHandler true (.ok ())).2,
       e.usesKey IMAGES_CACHE_KEY ∧ e.ttlIs CACHE_TTL) :=
  single_key_invariant true (.ok none) (.ok ()) (.ok ()) id
    (.ok [⟨"folder/pic", "https://sec"⟩])

/-- Instance of the C10 frame theorem on a store holding one unexpired entry. -/
theorem cache_hit_frame_witness :
    (apiImagesHandler true
        (.ok (liveGet
          (fun k => if k = IMAGES_CACHE_KEY then some (Json.str "snap", 10)
                    else none) 0 IMAGES_CACHE_KEY))
        (.ok ()) id (.ok [])).2 = [.cacheGet IMAGES_CACHE_KEY] ∧
    (∀ k, applyEvents 5
        (fun k => if k = IMAGES_CACHE_KEY then some (Json.str "snap", 10)
                  else none)
        (apiImagesHandler true
          (.ok (liveGet
            (fun k => if k = IMAGES_CACHE_KEY then some (Json.str "snap", 10)
                      else none) 0 IMAGES_CACHE_KEY))
          (.ok ()) id (.ok [])).2 k
      = (fun k => if k = IMAGES_CACHE_KEY then some (Json.str "snap", 10)
                  else none : CacheState) k) ∧
    (∀ (conn : Bool) (getRes : Except String (Option Json))
       (setRes2 : Except String Unit) (curl2 : String → String)
       (index2 : Except Unit (List Resource)) (e : Event),
       e ∈ (apiImagesHandler conn getRes setRes2 curl2 index2).2 →
       e.isSetEx = true → conn = true ∧ getRes = .ok none) ∧
    (∀ (conn : Bool) (getRes : Except String (Option Json))
       (setRes2 : Except String Unit) (curl2 : String → String)
       (index2 : Except Unit (List Resource)) (e : Event),
       e ∈ (apiImagesHandler conn getRes setRes2 curl2 index2).2 →
       e.isDel = false) ∧
    (∀ (conn : Bool) (delRes : Except String Unit) (e : Event),
       e ∈ (apiClearCacheHandler conn delRes).2 → e.isSetEx = false) :=
  cache_hit_frame
    (fun k => if k = IMAGES_CACHE_KEY then some (Json.str "snap", 10) else none)
    0 5 (.str "snap") 10 (.ok ()) id (.ok []) rfl (by decide)
